import Mathlib

/-!
Verification development for the `ds-projen` project-scaffolding generator.

The definitions below are a shallow embedding of the Python sources:

* `src/ds_projen/components/lazy_sample_file.py` (write-if-absent file emission),
* `src/ds_projen/components/pyproject_toml.py` (semi-editable manifest merge),
* `src/ds_projen/components/metaflow_project/metaflow_flow.py` (flow naming/validation),
* `src/ds_projen/components/metaflow_project/metaflow_project.py` (project construction
  and pre-synthesis validation),
* `src/ds_projen/components/metaflow_project/ci_cd_github_actions_workflow.py`
  (pipeline-definition generation).

Python strings are modelled over their ASCII fragment (`str.lower`, `str.strip`,
`str.title`, `str.isidentifier`, `str.islower` are reproduced for ASCII data, which
covers every name the generator handles).  The on-disk file system is an association
list from paths to file contents.
-/

/-! ## ASCII fragments of the Python `str` methods -/

/-- Python `s.lower()` on ASCII data: map every character to lower case. -/
def pyLower (s : String) : String :=
  ⟨s.data.map Char.toLower⟩

/-- Python `s.strip()` on ASCII data: drop whitespace from both ends. -/
def pyStrip (s : String) : String :=
  ⟨((s.data.dropWhile Char.isWhitespace).reverse.dropWhile Char.isWhitespace).reverse⟩

/-- Python `s.endswith(t)`. -/
def pyEndsWith (s t : String) : Bool :=
  t.data.isSuffixOf s.data

/-- Python `s[:-n]`: drop the last `n` characters (empty result when `n` exceeds the length). -/
def pyDropRight (s : String) (n : Nat) : String :=
  ⟨s.data.take (s.data.length - n)⟩

/-- Start character of a Python identifier (ASCII fragment): a letter or underscore. -/
def isIdentStart (c : Char) : Bool :=
  c.isAlpha || c = '_'

/-- Continuation character of a Python identifier (ASCII fragment). -/
def isIdentCont (c : Char) : Bool :=
  c.isAlpha || c.isDigit || c = '_'

/-- Python `s.isidentifier()` on ASCII data. -/
def pyIsIdentifier (s : String) : Bool :=
  match s.data with
  | [] => false
  | c :: cs => isIdentStart c && cs.all isIdentCont

/-- Python `s.islower()` on ASCII data: at least one cased character and no upper-case one. -/
def pyIsLower (s : String) : Bool :=
  s.data.any Char.isAlpha && s.data.all (fun c => !c.isUpper)

/-- Helper for `pyTitle`: the Bool records whether the previous character was cased. -/
def pyTitleGo : Bool → List Char → List Char
  | _, [] => []
  | prevCased, c :: cs =>
    let d := if c.isAlpha then (if prevCased then c.toLower else c.toUpper) else c
    d :: pyTitleGo c.isAlpha cs

/-- Python `s.title()` on ASCII data: capitalize the first letter of every run of letters. -/
def pyTitle (s : String) : String :=
  ⟨pyTitleGo false s.data⟩

/-- Python `s.replace("-", "_")`. -/
def replaceDashWithUnderscore (s : String) : String :=
  ⟨s.data.map (fun c => if c = '-' then '_' else c)⟩

/-- Python `s.replace(".", "_")`. -/
def replaceDotWithUnderscore (s : String) : String :=
  ⟨s.data.map (fun c => if c = '.' then '_' else c)⟩

/-- Helper for `splitOnChar`, accumulating the current segment in reverse. -/
def splitOnCharGo (c : Char) : List Char → List Char → List (List Char)
  | [], acc => [acc.reverse]
  | d :: ds, acc =>
    if d = c then acc.reverse :: splitOnCharGo c ds []
    else splitOnCharGo c ds (d :: acc)

/-- Python `s.split(c)` for a single-character separator (keeps empty segments). -/
def splitOnChar (c : Char) (s : String) : List String :=
  (splitOnCharGo c s.data []).map (fun l => ⟨l⟩)

/-- Python `pathlib.Path(p).name`: the final path component. -/
def pathName (p : String) : String :=
  (splitOnChar '/' p).getLast?.getD p

/-- Index of the last `'.'` in a character list, mirroring Python `str.rfind('.')`. -/
def rfindDotIdx (cs : List Char) : Option Nat :=
  (cs.reverse.findIdx? (· = '.')).map (fun j => cs.length - 1 - j)

/-- Python `pathlib.Path(p).stem`: the final component without its last suffix.  The
suffix is only removed when the dot is neither the first nor the last character of
the name, mirroring `pathlib`. -/
def pathStem (p : String) : String :=
  let nameStr := pathName p
  let cs := nameStr.data
  match rfindDotIdx cs with
  | some i => if 0 < i && i + 1 < cs.length then ⟨cs.take i⟩ else nameStr
  | none => nameStr

/-! ## File emission primitives (`lazy_sample_file.py`)

The on-disk state is an association list from path strings to file contents. -/

abbrev FileSystem := List (String × String)

/-- Contents stored at a path, if present. -/
def fsLookup : FileSystem → String → Option String
  | [], _ => none
  | (q, c) :: rest, p => if q = p then some c else fsLookup rest p

/-- Python `path.exists()` over the modelled file system. -/
def fsExists (fs : FileSystem) (p : String) : Bool :=
  (fsLookup fs p).isSome

/-- Embeds `write_file_if_not_exists`: write the contents only when the path does not
already exist (parent-directory creation is invisible in the flat path map). -/
def writeFileIfNotExists (fs : FileSystem) (outPath contents : String) : FileSystem :=
  if fsExists fs outPath then fs else (outPath, contents) :: fs

/-- Embeds `LazySampleFile.synthesize`.  The source first computes
`contents = self.get_contents_fn()` unconditionally and only then delegates to
`write_file_if_not_exists`; the returned Bool records whether the contents
function was invoked during the call (it always is). -/
def lazySampleFileSynthesize (fs : FileSystem) (outPath : String)
    (getContentsFn : Unit → String) : FileSystem × Bool :=
  let contents := getContentsFn ()
  (writeFileIfNotExists fs outPath contents, true)

/-! ## Semi-editable manifest merge (`pyproject_toml.py`) -/

/-- Lexicographic comparison of character lists by code point, as Python compares
strings. -/
def charListLe : List Char → List Char → Bool
  | [], _ => true
  | _ :: _, [] => false
  | a :: as, b :: bs => if a = b then charListLe as bs else decide (a.toNat < b.toNat)

/-- Python `a <= b` on strings: lexicographic by code point. -/
def pyStrLe (a b : String) : Bool :=
  charListLe a.data b.data

/-- Insertion of one element into a lexicographically sorted list. -/
def insertSorted (x : String) : List String → List String
  | [] => [x]
  | y :: ys => if pyStrLe x y then x :: y :: ys else y :: insertSorted x ys

/-- Lexicographic sorting, mirroring Python `sorted` on a list of strings. -/
def sortStrings : List String → List String
  | [] => []
  | x :: xs => insertSorted x (sortStrings xs)

/-- First-occurrence deduplication, the observable effect of Python `set(...)`
once the result is sorted. -/
def dedupStrings (xs : List String) : List String :=
  xs.foldl (fun acc x => if x ∈ acc then acc else acc ++ [x]) []

/-- Python `sorted(list(set(a) | set(b)))` applied to `a ++ b`. -/
def pySortedSetUnion (a b : List String) : List String :=
  sortStrings (dedupStrings (a ++ b))

/-- The `[project]` / `[dependency-groups]` data an existing `pyproject.toml`
may carry; `none` per field when the corresponding table/key is absent. -/
structure PyprojectTomlOnDisk where
  projectDependencies : Option (List String)
  dependencyGroups : Option (List (String × List String))
deriving DecidableEq

/-- Embeds the module constant `DEFAULT_DEPENDENCY_GROUPS`. -/
def DEFAULT_DEPENDENCY_GROUPS : List (String × List String) :=
  [("dev", ["pytest", "pytest-cov", "pre-commit", "ruff", "mypy"])]

/-- Embeds `_try_get_deps_from_existing_pyproject_toml`.  `onDisk = none` models a
missing file; otherwise the record carries the parsed tables. -/
def tryGetDepsFromExistingPyprojectToml (onDisk : Option PyprojectTomlOnDisk) :
    List String × List (String × List String) :=
  let dependencies : List String := []
  let dependencyGroups := DEFAULT_DEPENDENCY_GROUPS
  match onDisk with
  | none => (dependencies, dependencyGroups)
  | some contents =>
    let dependencies :=
      match contents.projectDependencies with
      | some pyprojDeps => pySortedSetUnion pyprojDeps dependencies
      | none => dependencies
    let dependencyGroups :=
      match contents.dependencyGroups with
      | some gs =>
        gs.foldl (fun acc g =>
          if (acc.map Prod.fst).contains g.1 then
            acc.map (fun kv => if kv.1 = g.1 then (g.1, pySortedSetUnion kv.2 g.2) else kv)
          else acc ++ [(g.1, sortStrings g.2)]) dependencyGroups
      | none => dependencyGroups
    (dependencies, dependencyGroups)

/-- Embeds the runtime-dependency computation of `PyprojectToml.__init__`: read the
existing manifest, then fall back to the caller-supplied defaults only when the
resulting list is empty (`if not dependencies`). -/
def pyprojectTomlDependencies (onDisk : Option PyprojectTomlOnDisk)
    (defaultDependencies : List String) : List String :=
  let dependencies := (tryGetDepsFromExistingPyprojectToml onDisk).1
  if dependencies.isEmpty then defaultDependencies else dependencies

/-- Stated from the spec for comparison: the runtime-dependency list is the union of
the defaults and the on-disk list, deduplicated and sorted lexicographically. -/
def specMergedRuntimeDeps (defaults onDiskDeps : List String) : List String :=
  pySortedSetUnion defaults onDiskDeps

/-! ## Flows (`metaflow_flow.py`) -/

/-- Embeds `assert_flow_filename_is_valid`: the filename must end with `_flow.py`,
and the filename with only its `.py` extension stripped (`filename[:-3]`) must be a
valid identifier written in lower case. -/
def assertFlowFilenameIsValid (filename : String) : Except String Unit :=
  if !(pyEndsWith filename "_flow.py") then
    .error ("Invalid flow filename: " ++ filename ++ ". Flow filenames must end with \x27_flow.py\x27.")
  else
    let flowNameChecked := pyDropRight filename 3
    if !(pyIsIdentifier flowNameChecked) then
      .error ("Invalid flow name: " ++ filename ++
        ". Flow names must be valid Python identifiers. E.g. lower_snake_case_flow.py")
    else if !(pyIsLower flowNameChecked) then
      .error ("Invalid flow name: " ++ filename ++
        ". Flow names must be lower snake case. E.g. lower_snake_case_flow.py")
    else .ok ()

/-- Embeds `get_flow_class_name_from_filepath`: take the stem of the path, replace
dashes with underscores, split on underscores and title-case every segment. -/
def getFlowClassNameFromFilepath (flowPath : String) : String :=
  let filenameNoExt := pathStem flowPath
  String.join (((splitOnChar '_' (replaceDashWithUnderscore filenameNoExt))).map pyTitle)

/-- One registered flow: the attributes `MetaflowFlow.__init__` stores. -/
structure MetaflowFlowRec where
  flowPath : String
  flowName : String
deriving DecidableEq

/-- File name of a flow, Python `flow.flow_path.name`. -/
def flowFileName (f : MetaflowFlowRec) : String :=
  pathName f.flowPath

/-! ## Project construction (`metaflow_project.py`) -/

/-- Embeds `DATA_SCIENCE_DOMAINS` from `consts.py` (domain name, domain leads). -/
def DATA_SCIENCE_DOMAINS : List (String × List String) :=
  [("content", ["Phil Huebner"]),
   ("operations", ["Jacob Miller", "Colton Fowler"]),
   ("forecasting", ["Brad Eustice"]),
   ("market-intelligence", ["Hamilton Noel", "Utsav Savaliya", "Pradnesh Lachake"]),
   ("demand-generation", ["Yi Gong"]),
   ("advertising", ["Krishna Priya", "Siva Rajananda"]),
   ("reference", ["Eric Riddoch"])]

/-- Membership test behind `assert__domain__is_valid`. -/
def domainIsValid (domain : String) : Bool :=
  (DATA_SCIENCE_DOMAINS.map Prod.fst).contains domain

/-- Embeds `assert__domain__is_valid`. -/
def assertDomainIsValid (domain : String) : Except String Unit :=
  if domainIsValid domain then .ok ()
  else .error ("Invalid domain: " ++ domain ++ ". Must be one of " ++
    String.intercalate ", " (DATA_SCIENCE_DOMAINS.map Prod.fst))

/-- The regex `^[a-z][a-z-]*[a-z]$` of `assert__project_name__is_valid`: at least two
characters, first and last a lower-case letter, middle letters or hyphens. -/
def projectNameMatches (s : String) : Bool :=
  match s.data with
  | [] => false
  | c :: cs =>
    match cs.getLast? with
    | none => false
    | some lastC => c.isLower && cs.dropLast.all (fun d => d.isLower || d = '-') && lastC.isLower

/-- Embeds `assert__project_name__is_valid`: the check runs on a lowercased, stripped
copy of the input; the normalized copy is local to the function. -/
def assertProjectNameIsValid (name : String) : Except String Unit :=
  let nameNorm := pyStrip (pyLower name)
  if projectNameMatches nameNorm then .ok ()
  else .error "Project name must:\n- Only contain lowercase letters and hyphens\n- Start and end with a letter"

/-- The regex `^[a-z][a-z_]*[a-z]$` of `assert__import_module_name__is_valid`. -/
def importModuleNameMatches (s : String) : Bool :=
  match s.data with
  | [] => false
  | c :: cs =>
    match cs.getLast? with
    | none => false
    | some lastC => c.isLower && cs.dropLast.all (fun d => d.isLower || d = '_') && lastC.isLower

/-- Embeds `assert__import_module_name__is_valid`; the normalized name is returned but
the caller discards it. -/
def assertImportModuleNameIsValid (name : String) : Except String String :=
  let nameNorm := pyStrip (pyLower name)
  if importModuleNameMatches nameNorm then .ok nameNorm
  else .error "Import module name must:\n- Only contain lowercase letters and underscores\n- Start and end with a letter"

/-- The attributes `MetaflowProject.__init__` stores (paths flattened to strings,
`/`-joined as `pathlib` renders them on POSIX). -/
structure MetaflowProjectRec where
  name : String
  domain : String
  outdir : String
  importModuleName : String
  srcDir : String
  packageDir : String
  flows : List MetaflowFlowRec
deriving DecidableEq

/-- Embeds `MetaflowProject.__init__` up to child-component creation: validate the
inputs in source order, then store the derived attributes.  The stored `name` is the
original argument, not the normalized copy used for validation.  The flow list starts
empty; `addFlowState` appends to it. -/
def metaflowProjectInit (name domain : String) (importModuleName outdir : Option String) :
    Except String MetaflowProjectRec :=
  match assertProjectNameIsValid name with
  | .error e => .error e
  | .ok _ =>
    match assertDomainIsValid domain with
    | .error e => .error e
    | .ok _ =>
      match (match importModuleName with
             | some m => (assertImportModuleNameIsValid m).map (fun _ => ())
             | none => .ok ()) with
      | .error e => .error e
      | .ok _ =>
        let outdirS := "domains/" ++ domain ++ "/" ++ (outdir.getD name)
        let importMod :=
          match importModuleName with
          | none => replaceDashWithUnderscore name
          | some m => m
        .ok { name := name, domain := domain, outdir := outdirS,
              importModuleName := importMod,
              srcDir := outdirS ++ "/src",
              packageDir := outdirS ++ "/src/" ++ importMod,
              flows := [] }

/-- Embeds `MetaflowProject.add_flow` / `MetaflowFlow.__init__` as a state transition
on the project: validation runs before `scope.flows.append(self)`, so an invalid
filename raises (second component `some errorMessage`) with the flow list untouched;
a valid one appends a flow whose path lives under the project's `src` directory and
whose class name is derived from that path. -/
def addFlowState (p : MetaflowProjectRec) (filename : String) :
    MetaflowProjectRec × Option String :=
  match assertFlowFilenameIsValid filename with
  | .error e => (p, some e)
  | .ok _ =>
    let newFlowPath := p.srcDir ++ "/" ++ filename
    ({ p with flows := p.flows ++
        [{ flowPath := newFlowPath,
           flowName := getFlowClassNameFromFilepath newFlowPath }] }, none)

/-- Embeds `MetaflowProject.pre_synthesize`'s zero-flow error message (the `dedent`ed
f-string from the source). -/
def zeroFlowErrorMessage (name : String) : String :=
  "\n\n\n==========================\n\n💡 No flows found in the project MetaflowProject(name=\"" ++
  name ++ "\") in `.projenrc.py`.\n\nYou likely set up the MetaflowProject() correctly. \n\n" ++
  "But it does not make sense to have a MetaflowProject with out at least one flow.\n\n" ++
  "Register a flow with `my_metaflow_project.add_flow(filename=\"my_flow.py\")`.\n"

/-- Embeds the validation part of `MetaflowProject.pre_synthesize`: raise a
`ValueError` when no flows have been registered. -/
def preSynthesizeCheck (p : MetaflowProjectRec) : Option String :=
  if p.flows.length = 0 then some (zeroFlowErrorMessage p.name) else none

/-- Modelled from the spec: the `synth` driver that walks the generator tree lives in
the external `projen` library, not in this repository.  Per the spec (§4.3 and §6),
a synthesis pass first runs the pre-synthesis validation hook of every node and only
then performs file emission, so a validation error aborts the run before any file is
written.  The second component is the raised error, if any. -/
def repositorySynth (fs : FileSystem) (projects : List MetaflowProjectRec)
    (emissions : List (String × String)) : FileSystem × Option String :=
  match projects.findSome? preSynthesizeCheck with
  | some e => (fs, some e)
  | none =>
    (emissions.foldl (fun acc pc => writeFileIfNotExists acc pc.1 pc.2) fs, none)

/-! ## Pipeline definition generation (`ci_cd_github_actions_workflow.py`)

The workflow content is the Python dict literal passed to `YamlFile`, embedded as a
structured document.  Literal braces inside shell snippets are written with the
escapes `\x7b` and `\x7d`. -/

inductive Yaml where
  | str : String → Yaml
  | bool : Bool → Yaml
  | arr : List Yaml → Yaml
  | obj : List (String × Yaml) → Yaml

/-- Keys of an association list. -/
def keysOf (d : List (String × Yaml)) : List String :=
  d.map Prod.fst

/-- First value stored under a key. -/
def lookupKey : List (String × Yaml) → String → Option Yaml
  | [], _ => none
  | (a, v) :: rest, k => if a = k then some v else lookupKey rest k

/-- Python dict assignment `d[k] = v` on an association list: replace in place when
the key is present, append otherwise. -/
def dictInsert (d : List (String × Yaml)) (k : String) (v : Yaml) : List (String × Yaml) :=
  if d.any (fun kv => kv.1 = k) then
    d.map (fun kv => if kv.1 = k then (k, v) else kv)
  else d ++ [(k, v)]

/-- Value of a mapping under a key (`none` on scalars/sequences). -/
def yamlGet (y : Yaml) (k : String) : Option Yaml :=
  match y with
  | Yaml.obj kvs => lookupKey kvs k
  | _ => none

/-- Like `yamlGet` with an empty mapping as the default. -/
def yamlGetD (y : Yaml) (k : String) : Yaml :=
  (yamlGet y k).getD (Yaml.obj [])

/-- Keys of a mapping node. -/
def yamlKeys (y : Yaml) : List String :=
  match y with
  | Yaml.obj kvs => keysOf kvs
  | _ => []

/-- String elements of a sequence node. -/
def yamlStrArr (y : Yaml) : List String :=
  match y with
  | Yaml.arr vs => vs.filterMap (fun v => match v with | Yaml.str s => some s | _ => none)
  | _ => []

/-- Path filters of one trigger in a workflow document. -/
def triggerPaths (doc : Yaml) (trigger : String) : List String :=
  yamlStrArr (yamlGetD (yamlGetD (yamlGetD doc "on") trigger) "paths")

/-- Embeds the module constant `PROD_OUTERBOUNDS_USERNAME`. -/
def PROD_OUTERBOUNDS_USERNAME : String := "data-science-projects-prod"

/-- Embeds the module constant `DEV_OUTERBOUNDS_USERNAME`. -/
def DEV_OUTERBOUNDS_USERNAME : String := "data-science-projects-dev"

/-- Embeds the module constant `PROD_PERIMETER`. -/
def PROD_PERIMETER : String := "prod"

/-- Embeds the module constant `DEFAULT_PERIMETER`. -/
def DEFAULT_PERIMETER : String := "default"

/-- Embeds the module constant `PACKAGE_SUFFIXES`. -/
def PACKAGE_SUFFIXES : String :=
  String.intercalate "," [".csv", ".sql", ".json"]

/-- Embeds `_get_lint_job`. -/
def getLintJob (wd : String) : Yaml :=
  Yaml.obj [
    ("name", Yaml.str "Run Linter (pre-commit)"),
    ("if", Yaml.str "github.event_name != \x27workflow_dispatch\x27"),
    ("runs-on", Yaml.str "ubuntu-latest"),
    ("defaults", Yaml.obj [("run", Yaml.obj [("working-directory", Yaml.str wd)])]),
    ("steps", Yaml.arr [
      Yaml.obj [("uses", Yaml.str "actions/checkout@v4")],
      Yaml.obj [
        ("name", Yaml.str "Set up uv"),
        ("uses", Yaml.str "astral-sh/setup-uv@v5"),
        ("with", Yaml.obj [
          ("enable-cache", Yaml.bool true),
          ("cache-dependency-glob",
            Yaml.str ("$\x7b\x7b github.workspace \x7d\x7d/" ++ wd ++ "/uv.lock"))])],
      Yaml.obj [
        ("name", Yaml.str "Run pre-commit"),
        ("run", Yaml.str ("uv run pre-commit run --files " ++ wd ++ "/**"))]])]

/-- Embeds `_get_test_job`. -/
def getTestJob (wd : String) : Yaml :=
  Yaml.obj [
    ("name", Yaml.str "Run tests"),
    ("if", Yaml.str "github.event_name != \x27workflow_dispatch\x27"),
    ("runs-on", Yaml.str "ubuntu-latest"),
    ("defaults", Yaml.obj [("run", Yaml.obj [("working-directory", Yaml.str wd)])]),
    ("steps", Yaml.arr [
      Yaml.obj [("uses", Yaml.str "actions/checkout@v4")],
      Yaml.obj [
        ("name", Yaml.str "Set up uv"),
        ("uses", Yaml.str "astral-sh/setup-uv@v5"),
        ("with", Yaml.obj [
          ("enable-cache", Yaml.bool true),
          ("cache-dependency-glob",
            Yaml.str ("$\x7b\x7b github.workspace \x7d\x7d/" ++ wd ++ "/uv.lock"))])],
      Yaml.obj [
        ("name", Yaml.str "Run pytest"),
        ("run", Yaml.str "uv run pytest tests/")]])]

/-- The dedented `Configure Outerbounds Auth` snippet of `_get_auto_deploy_job`. -/
def autoDeployAuthRun : String :=
  "uvx outerbounds service-principal-configure \\\n--name " ++ PROD_OUTERBOUNDS_USERNAME ++
  " \\\n--deployment-domain pattern.obp.outerbounds.com \\\n--perimeter " ++ PROD_PERIMETER ++
  " \\\n--github-actions"

/-- The dedented `Deploy Prod Flow` snippet of `_get_auto_deploy_job`. -/
def autoDeployFlowRun (flowFile : String) : String :=
  "uv run src/" ++ flowFile ++ " \\\n--config ./configs/prod.json \\\n--environment=fast-bakery \\\n--package-suffixes=\x27" ++
  PACKAGE_SUFFIXES ++ "\x27 \\\n--production \\\nargo-workflows create"

/-- Embeds `_get_auto_deploy_job`. -/
def getAutoDeployJob (wd jobIdSuffix flowFile : String) : Yaml :=
  Yaml.obj [
    ("name", Yaml.str ("Auto-deploy " ++ jobIdSuffix ++ " to prod (on merge to main)")),
    ("if", Yaml.str "github.event_name == \x27push\x27 && github.ref == \x27refs/heads/main\x27"),
    ("needs", Yaml.arr [Yaml.str "lint", Yaml.str "test"]),
    ("runs-on", Yaml.str "ubuntu-latest"),
    ("defaults", Yaml.obj [("run", Yaml.obj [("working-directory", Yaml.str wd)])]),
    ("permissions", Yaml.obj [("contents", Yaml.str "read"), ("id-token", Yaml.str "write")]),
    ("steps", Yaml.arr [
      Yaml.obj [("uses", Yaml.str "actions/checkout@v4")],
      Yaml.obj [("name", Yaml.str "Set up uv"), ("uses", Yaml.str "astral-sh/setup-uv@v5")],
      Yaml.obj [("name", Yaml.str "Configure Outerbounds Auth"), ("run", Yaml.str autoDeployAuthRun)],
      Yaml.obj [("name", Yaml.str "Deploy Prod Flow"), ("run", Yaml.str (autoDeployFlowRun flowFile))]])]

/-- The dedented `Configure Outerbounds Auth` snippet of `_get_manual_deploy_job`. -/
def manualDeployAuthRun : String :=
  "USER_NAME=\"" ++ DEV_OUTERBOUNDS_USERNAME ++ "\"\nPERIMETER=\"" ++ DEFAULT_PERIMETER ++
  "\"\nif [[ \"$\x7b\x7b github.event.inputs.environment \x7d\x7d\" == \"prod\" ]]; then\n  USER_NAME=\"" ++
  PROD_OUTERBOUNDS_USERNAME ++ "\"\n  PERIMETER=\"" ++ PROD_PERIMETER ++
  "\"\nfi\n\nuvx outerbounds service-principal-configure \\\n  --name $USER_NAME \\\n  --deployment-domain pattern.obp.outerbounds.com \\\n  --perimeter $PERIMETER \\\n  --github-actions"

/-- The dedented per-flow deploy snippet of `_get_manual_deploy_job`. -/
def manualDeployFlowRun (flowFile : String) : String :=
  "if [[ \"$\x7b\x7b github.event.inputs.environment \x7d\x7d\" == \"prod\" ]]; then\n  uv run src/" ++
  flowFile ++ " \\\n    --config ./configs/prod.json \\\n    --environment=fast-bakery \\\n    --package-suffixes=\x27" ++
  PACKAGE_SUFFIXES ++ "\x27 \\\n    --production \\\n    argo-workflows create\nelse\n  uv run src/" ++
  flowFile ++ " \\\n    --environment=fast-bakery \\\n    --package-suffixes=\x27" ++
  PACKAGE_SUFFIXES ++ "\x27 \\\n    run \\\n    --tag manual-trigger\nfi"

/-- The three fixed steps a `manual-deploy` job starts with. -/
def manualDeployBaseSteps : List Yaml :=
  [Yaml.obj [("uses", Yaml.str "actions/checkout@v4")],
   Yaml.obj [("name", Yaml.str "Set up uv"), ("uses", Yaml.str "astral-sh/setup-uv@v5")],
   Yaml.obj [("name", Yaml.str "Configure Outerbounds Auth"), ("run", Yaml.str manualDeployAuthRun)]]

/-- One per-flow deploy step of the `manual-deploy` job. -/
def manualDeployStep (flowFile : String) : Yaml :=
  Yaml.obj [("name", Yaml.str ("Deploy " ++ flowFile)),
            ("run", Yaml.str (manualDeployFlowRun flowFile))]

/-- Embeds `_get_manual_deploy_job`: a single job whose steps are the three fixed steps
followed by one deploy step per flow in registration order. -/
def getManualDeployJob (wd : String) (flows : List MetaflowFlowRec) : Yaml :=
  Yaml.obj [
    ("name", Yaml.str "Manual Deploy All Flows (Dev or Prod)"),
    ("if", Yaml.str "github.event_name == \x27workflow_dispatch\x27"),
    ("runs-on", Yaml.str "ubuntu-latest"),
    ("defaults", Yaml.obj [("run", Yaml.obj [("working-directory", Yaml.str wd)])]),
    ("permissions", Yaml.obj [("contents", Yaml.str "read"), ("id-token", Yaml.str "write")]),
    ("steps", Yaml.arr (manualDeployBaseSteps ++
      flows.map (fun f => manualDeployStep (flowFileName f))))]

/-- The generated workflow file name `ci-cd--<domain>--<name>.yml`. -/
def workflowFileName (p : MetaflowProjectRec) : String :=
  "ci-cd--" ++ p.domain ++ "--" ++ p.name ++ ".yml"

/-- Key of the auto-deploy job generated for a flow: the flow's file name with dots
replaced by underscores, after the fixed `auto-deploy--` tag. -/
def autoDeployJobName (f : MetaflowFlowRec) : String :=
  "auto-deploy--" ++ replaceDotWithUnderscore (flowFileName f)

/-- Embeds `_create_workflow_file`: the workflow document handed to `YamlFile`.  The
`working-directory` is `str(self.metaflow_project.outdir)`; the jobs dict starts with
`lint` and `test`, gains one auto-deploy job per flow (dict assignment), and finally
the `manual-deploy` job. -/
def mkWorkflowContent (p : MetaflowProjectRec) : Yaml :=
  let workflowName := workflowFileName p
  let wd := p.outdir
  let onVal := Yaml.obj [
    ("push", Yaml.obj [
      ("branches", Yaml.arr [Yaml.str "main"]),
      ("paths", Yaml.arr [Yaml.str (wd ++ "/**"),
                          Yaml.str (".github/workflows/" ++ workflowName)])]),
    ("pull_request", Yaml.obj [
      ("types", Yaml.arr [Yaml.str "opened", Yaml.str "synchronize"]),
      ("paths", Yaml.arr [Yaml.str (wd ++ "/**"),
                          Yaml.str (".github/workflows/" ++ workflowName)])]),
    ("workflow_dispatch", Yaml.obj [
      ("inputs", Yaml.obj [
        ("environment", Yaml.obj [
          ("description", Yaml.str "prod: main only; dev: all branches"),
          ("required", Yaml.bool true),
          ("type", Yaml.str "choice"),
          ("options", Yaml.arr [Yaml.str "dev", Yaml.str "prod"])])])])]
  let jobs0 : List (String × Yaml) := [("lint", getLintJob wd), ("test", getTestJob wd)]
  let jobs1 := p.flows.foldl (fun jobs f =>
    dictInsert jobs (autoDeployJobName f)
      (getAutoDeployJob wd (replaceDotWithUnderscore (flowFileName f)) (flowFileName f))) jobs0
  let jobs2 := dictInsert jobs1 "manual-deploy" (getManualDeployJob wd p.flows)
  Yaml.obj [
    ("name", Yaml.str (p.domain ++ "/" ++ p.name ++ " (CI/CD)")),
    ("on", onVal),
    ("jobs", Yaml.obj jobs2)]

/-! ## Concrete projects used by witnesses -/

/-- Extracts the project from a successful construction (dummy fallback on error). -/
def projectOrDummy (e : Except String MetaflowProjectRec) : MetaflowProjectRec :=
  match e with
  | .ok p => p
  | .error _ =>
    { name := "", domain := "", outdir := "", importModuleName := "",
      srcDir := "", packageDir := "", flows := [] }

/-- The project `demo` in domain `reference`, before any flow is added. -/
def demoProjectNoFlows : MetaflowProjectRec :=
  projectOrDummy (metaflowProjectInit "demo" "reference" none none)

/-- The `demo` project after `add_flow("sample_flow.py")`. -/
def demoProject : MetaflowProjectRec :=
  (addFlowState demoProjectNoFlows "sample_flow.py").1

/-- The `demo` project constructed with a custom `outdir="custom"`, same flow. -/
def customOutdirProject : MetaflowProjectRec :=
  (addFlowState (projectOrDummy (metaflowProjectInit "demo" "reference" none (some "custom")))
    "sample_flow.py").1

/-- The `demo` project after adding `a_flow.py` and `b_flow.py` (distinct filenames). -/
def twoFlowProject : MetaflowProjectRec :=
  (addFlowState (addFlowState demoProjectNoFlows "a_flow.py").1 "b_flow.py").1

/-- The `demo` project after adding `a_flow.py` twice (duplicate filenames). -/
def dupFlowProject : MetaflowProjectRec :=
  (addFlowState (addFlowState demoProjectNoFlows "a_flow.py").1 "a_flow.py").1

/-- Stated from the claim on flow-filename validation, for comparison: the filename
ends with the fixed suffix `_flow.py` and the remainder once that whole suffix is
stripped is a valid lowercase identifier. -/
def specFlowFilenameOk (filename : String) : Bool :=
  pyEndsWith filename "_flow.py"
  && pyIsIdentifier (pyDropRight filename 8)
  && pyIsLower (pyDropRight filename 8)

/-! ## Dictionary lemmas for the jobs mapping -/

lemma dictInsert_append (d : List (String × Yaml)) (k : String) (v : Yaml)
    (h : k ∉ keysOf d) : dictInsert d k v = d ++ [(k, v)] := by
  have hany : d.any (fun kv => kv.1 = k) = false := by
    by_contra hc
    rw [Bool.not_eq_false, List.any_eq_true] at hc
    obtain ⟨kv, hkv, he⟩ := hc
    rw [decide_eq_true_eq] at he
    exact h (he ▸ List.mem_map_of_mem Prod.fst hkv)
  simp [dictInsert, hany]

lemma lookupKey_eq_none (d : List (String × Yaml)) (k : String) (h : k ∉ keysOf d) :
    lookupKey d k = none := by
  induction d with
  | nil => rfl
  | cons kv rest ih =>
    obtain ⟨a, v⟩ := kv
    simp only [keysOf, List.map_cons, List.mem_cons, not_or] at h
    have ha : a ≠ k := fun he => h.1 he.symm
    simp only [lookupKey, if_neg ha]
    exact ih h.2

lemma lookupKey_append_right (d1 d2 : List (String × Yaml)) (k : String)
    (h : lookupKey d1 k = none) : lookupKey (d1 ++ d2) k = lookupKey d2 k := by
  induction d1 with
  | nil => rfl
  | cons kv rest ih =>
    obtain ⟨a, v⟩ := kv
    by_cases hk : a = k
    · simp only [lookupKey, if_pos hk] at h
      exact absurd h (by simp)
    · simp only [List.cons_append, lookupKey, if_neg hk] at h ⊢
      exact ih h

lemma head_append_auto (s : String) : (("auto-deploy--" ++ s).data).head? = some 'a' := rfl

lemma autoName_ne_of_head (s : String) {t : String} (ht : (t.data).head? ≠ some 'a') :
    "auto-deploy--" ++ s ≠ t :=
  fun h => ht (h ▸ head_append_auto s)

lemma autoDeployJobName_ne_lint (f : MetaflowFlowRec) : autoDeployJobName f ≠ "lint" :=
  autoName_ne_of_head (replaceDotWithUnderscore (flowFileName f)) (by decide)

lemma autoDeployJobName_ne_test (f : MetaflowFlowRec) : autoDeployJobName f ≠ "test" :=
  autoName_ne_of_head (replaceDotWithUnderscore (flowFileName f)) (by decide)

lemma autoDeployJobName_ne_manual (f : MetaflowFlowRec) :
    autoDeployJobName f ≠ "manual-deploy" :=
  autoName_ne_of_head (replaceDotWithUnderscore (flowFileName f)) (by decide)

lemma foldl_dictInsert_keys (g : MetaflowFlowRec → Yaml) (flows : List MetaflowFlowRec) :
    ∀ init : List (String × Yaml),
      (∀ f ∈ flows, autoDeployJobName f ∉ keysOf init) →
      (flows.map autoDeployJobName).Nodup →
      keysOf (flows.foldl (fun jobs f => dictInsert jobs (autoDeployJobName f) (g f)) init)
        = keysOf init ++ flows.map autoDeployJobName := by
  induction flows with
  | nil => intro init _ _; simp
  | cons f rest ih =>
    intro init hfresh hnd
    rw [List.foldl_cons, dictInsert_append _ _ _ (hfresh f (List.mem_cons_self f rest))]
    have hkeys : keysOf (init ++ [(autoDeployJobName f, g f)])
        = keysOf init ++ [autoDeployJobName f] := by simp [keysOf]
    rw [List.map_cons, List.nodup_cons] at hnd
    have hfresh2 : ∀ f2 ∈ rest,
        autoDeployJobName f2 ∉ keysOf (init ++ [(autoDeployJobName f, g f)]) := by
      intro f2 hf2
      rw [hkeys]
      intro hmem
      rcases List.mem_append.mp hmem with h1 | h2
      · exact hfresh f2 (List.mem_cons_of_mem f hf2) h1
      · exact hnd.1 ((by simpa using h2) ▸ List.mem_map_of_mem autoDeployJobName hf2)
    rw [ih _ hfresh2 hnd.2, hkeys, List.map_cons, List.append_assoc]
    simp

/-! ## Claim C1 — dependency merge -/

/-- C1: the claim states that the regenerated manifest's runtime dependencies are the
sorted, deduplicated union of the defaults and the on-disk list, so with on-disk
`["requests"]` and defaults `["pandas"]` the result should be `["pandas", "requests"]`.
The embedded code instead unions the on-disk list with an empty local list and only
falls back to the defaults when that result is empty, producing `["requests"]` — the
defaults are dropped whenever the on-disk list is non-empty, contradicting the source's
own comments ("add any deps found in pyproject.toml to the default deps"). -/
theorem pyproject_merge_drops_defaults :
    pyprojectTomlDependencies
        (some { projectDependencies := some ["requests"], dependencyGroups := none })
        ["pandas"] = ["requests"]
    ∧ specMergedRuntimeDeps ["pandas"] ["requests"] = ["pandas", "requests"]
    ∧ pyprojectTomlDependencies
        (some { projectDependencies := some ["requests"], dependencyGroups := none })
        ["pandas"]
      ≠ specMergedRuntimeDeps ["pandas"] ["requests"] := by decide

/-! ## Claim C2 — laziness of sample-file contents -/

/-- C2 (counterexample): with the target path already on disk, `synthesize` still
invokes the content-producing function (the source computes
`contents = self.get_contents_fn()` before the existence check), refuting the claim
that the function is "not invoked at all". -/
theorem lazy_sample_contents_fn_invoked_on_existing :
    fsExists [("README.md", "user text")] "README.md" = true
    ∧ (lazySampleFileSynthesize [("README.md", "user text")] "README.md"
        (fun _ => "# generated\n")).2 = true :=
  ⟨by decide, rfl⟩

/-- C2 (amended): when the target path already exists, synthesis of a sample file
leaves the file system unchanged (no write occurs), but the content-producing
function is still invoked — it is lazy only relative to construction time, not
relative to the existence check. -/
theorem lazy_sample_no_write_when_exists (fs : FileSystem) (p : String)
    (getContentsFn : Unit → String) (h : fsExists fs p = true) :
    (lazySampleFileSynthesize fs p getContentsFn).1 = fs
    ∧ (lazySampleFileSynthesize fs p getContentsFn).2 = true := by
  refine ⟨?_, rfl⟩
  simp [lazySampleFileSynthesize, writeFileIfNotExists, h]

/-- C2 witness: the amended theorem applied at a concrete pre-existing file. -/
theorem lazy_sample_no_write_when_exists_witness :
    (lazySampleFileSynthesize [("a.txt", "old")] "a.txt" (fun _ => "new")).1
        = [("a.txt", "old")]
    ∧ (lazySampleFileSynthesize [("a.txt", "old")] "a.txt" (fun _ => "new")).2 = true :=
  lazy_sample_no_write_when_exists [("a.txt", "old")] "a.txt" (fun _ => "new") (by decide)

/-! ## Claim C3 — flow class-name derivation -/

/-- C3: the claim (and the source function's own docstring,
`some_backtest_flow.py -> SomeBacktest`) say the `_flow` suffix is stripped before the
snake-to-Pascal conversion, so `add_flow("daily_forecast_flow.py")` should derive
`DailyForecast`.  The embedded code only strips the `.py` extension, so the accepted
flow is registered with class name `DailyForecastFlow`. -/
theorem flow_class_name_keeps_flow_suffix :
    (addFlowState demoProjectNoFlows "daily_forecast_flow.py").2 = none
    ∧ (addFlowState demoProjectNoFlows "daily_forecast_flow.py").1.flows.map
        MetaflowFlowRec.flowName = ["DailyForecastFlow"]
    ∧ getFlowClassNameFromFilepath "path/to/some_backtest_flow.py" = "SomeBacktestFlow"
    ∧ "DailyForecastFlow" ≠ "DailyForecast" := by decide

/-! ## Claim C4 — pipeline job set -/

/-- C4 (counterexample): `add_flow` accepts the same filename twice, and the two
auto-deploy jobs then collapse onto one dictionary key, so a project with N = 2
registered flows has 4 jobs, not 2 + N + 1 = 5. -/
theorem workflow_jobs_collapse_on_duplicate_flow_filenames :
    dupFlowProject.flows.length = 2
    ∧ yamlKeys (yamlGetD (mkWorkflowContent dupFlowProject) "jobs")
        = ["lint", "test", "auto-deploy--a_flow_py", "manual-deploy"]
    ∧ (yamlKeys (yamlGetD (mkWorkflowContent dupFlowProject) "jobs")).length
        ≠ 2 + dupFlowProject.flows.length + 1 := by decide

/-- C4 (amended): provided the derived auto-deploy job names are pairwise distinct
(which holds whenever the registered flow filenames are distinct, since validated
filenames contain no dot besides `.py`), the generated document's job keys are
exactly `lint`, `test`, one `auto-deploy--<filename with dots replaced by
underscores>` per flow in registration order, and a single final `manual-deploy`
job — 2 + N + 1 jobs in total — and the `manual-deploy` job holds one deploy step
per flow in registration order after its three fixed steps. -/
theorem workflow_job_set (p : MetaflowProjectRec)
    (hnd : (p.flows.map autoDeployJobName).Nodup) :
    yamlKeys (yamlGetD (mkWorkflowContent p) "jobs")
        = ["lint", "test"] ++ p.flows.map autoDeployJobName ++ ["manual-deploy"]
    ∧ (yamlKeys (yamlGetD (mkWorkflowContent p) "jobs")).length = 2 + p.flows.length + 1
    ∧ yamlGet (yamlGetD (mkWorkflowContent p) "jobs") "manual-deploy"
        = some (getManualDeployJob p.outdir p.flows)
    ∧ yamlGet (getManualDeployJob p.outdir p.flows) "steps"
        = some (Yaml.arr (manualDeployBaseSteps ++
            p.flows.map (fun f => manualDeployStep (flowFileName f)))) := by
  have hfresh : ∀ f ∈ p.flows, autoDeployJobName f
      ∉ keysOf [("lint", getLintJob p.outdir), ("test", getTestJob p.outdir)] := by
    intro f _ hmem
    simp only [keysOf, List.map_cons, List.map_nil, List.mem_cons,
      List.not_mem_nil, or_false] at hmem
    rcases hmem with h1 | h2
    · exact autoDeployJobName_ne_lint f h1
    · exact autoDeployJobName_ne_test f h2
  have hfold := foldl_dictInsert_keys
    (fun f => getAutoDeployJob p.outdir (replaceDotWithUnderscore (flowFileName f))
      (flowFileName f))
    p.flows [("lint", getLintJob p.outdir), ("test", getTestJob p.outdir)] hfresh hnd
  have hmanual : "manual-deploy" ∉ keysOf
      (p.flows.foldl (fun jobs f => dictInsert jobs (autoDeployJobName f)
        (getAutoDeployJob p.outdir (replaceDotWithUnderscore (flowFileName f))
          (flowFileName f)))
        [("lint", getLintJob p.outdir), ("test", getTestJob p.outdir)]) := by
    rw [hfold]
    intro hmem
    rcases List.mem_append.mp hmem with h1 | h2
    · simp only [keysOf, List.map_cons, List.map_nil, List.mem_cons,
        List.not_mem_nil, or_false] at h1
      rcases h1 with h3 | h4
      · exact absurd h3 (by decide)
      · exact absurd h4 (by decide)
    · obtain ⟨f, _, he⟩ := List.mem_map.mp h2
      exact autoDeployJobName_ne_manual f he
  have hins := dictInsert_append
    (p.flows.foldl (fun jobs f => dictInsert jobs (autoDeployJobName f)
      (getAutoDeployJob p.outdir (replaceDotWithUnderscore (flowFileName f))
        (flowFileName f)))
      [("lint", getLintJob p.outdir), ("test", getTestJob p.outdir)])
    "manual-deploy" (getManualDeployJob p.outdir p.flows) hmanual
  have hjobs : yamlGetD (mkWorkflowContent p) "jobs"
      = Yaml.obj (dictInsert
          (p.flows.foldl (fun jobs f => dictInsert jobs (autoDeployJobName f)
            (getAutoDeployJob p.outdir (replaceDotWithUnderscore (flowFileName f))
              (flowFileName f)))
            [("lint", getLintJob p.outdir), ("test", getTestJob p.outdir)])
          "manual-deploy" (getManualDeployJob p.outdir p.flows)) := rfl
  have hk1 : yamlKeys (yamlGetD (mkWorkflowContent p) "jobs")
      = ["lint", "test"] ++ p.flows.map autoDeployJobName ++ ["manual-deploy"] := by
    rw [hjobs, hins]
    show keysOf _ = _
    rw [show keysOf ((p.flows.foldl (fun jobs f => dictInsert jobs (autoDeployJobName f)
      (getAutoDeployJob p.outdir (replaceDotWithUnderscore (flowFileName f))
        (flowFileName f)))
      [("lint", getLintJob p.outdir), ("test", getTestJob p.outdir)]) ++
      [("manual-deploy", getManualDeployJob p.outdir p.flows)])
      = keysOf (p.flows.foldl (fun jobs f => dictInsert jobs (autoDeployJobName f)
        (getAutoDeployJob p.outdir (replaceDotWithUnderscore (flowFileName f))
          (flowFileName f)))
        [("lint", getLintJob p.outdir), ("test", getTestJob p.outdir)])
        ++ ["manual-deploy"] from by simp [keysOf]]
    rw [hfold]
    simp [keysOf, List.append_assoc]
  refine ⟨hk1, ?_, ?_, rfl⟩
  · rw [hk1]; simp; omega
  · rw [hjobs, hins]
    show lookupKey _ "manual-deploy" = _
    rw [lookupKey_append_right _ _ _ (lookupKey_eq_none _ _ hmanual)]
    simp [lookupKey]

/-- C4 witness: the amended theorem at a project with two distinct flows. -/
theorem workflow_job_set_witness :
    yamlKeys (yamlGetD (mkWorkflowContent twoFlowProject) "jobs")
        = ["lint", "test", "auto-deploy--a_flow_py", "auto-deploy--b_flow_py",
           "manual-deploy"]
    ∧ (yamlKeys (yamlGetD (mkWorkflowContent twoFlowProject) "jobs")).length
        = 2 + twoFlowProject.flows.length + 1 := by
  have t := workflow_job_set twoFlowProject (by decide)
  exact ⟨t.1.trans (by decide), t.2.1⟩

/-! ## Claim C5 — zero-flow validation -/

/-- C5: a project with no registered flows passes construction (flows are added after
construction), but the pre-synthesis validation hook raises the zero-flow
configuration error, and since validation precedes all file emission the file system
is unchanged when the error is raised.  The synthesis driver itself lives in the
external `projen` library and is modelled from the spec. -/
theorem zero_flow_project_fails_at_validation (fs : FileSystem)
    (p : MetaflowProjectRec) (emissions : List (String × String))
    (h : p.flows = []) :
    (repositorySynth fs [p] emissions).2 = some (zeroFlowErrorMessage p.name)
    ∧ (repositorySynth fs [p] emissions).1 = fs
    ∧ metaflowProjectInit "demo" "reference" none none = Except.ok demoProjectNoFlows
    ∧ demoProjectNoFlows.flows = [] := by
  have hc : preSynthesizeCheck p = some (zeroFlowErrorMessage p.name) := by
    simp [preSynthesizeCheck, h]
  refine ⟨?_, ?_, rfl, rfl⟩
  · simp [repositorySynth, hc]
  · simp [repositorySynth, hc]

/-- C5 witness: the theorem at the concrete flowless `demo` project. -/
theorem zero_flow_project_fails_at_validation_witness :
    (repositorySynth [] [demoProjectNoFlows]
        [("domains/reference/demo/README.md", "# demo\n")]).2
      = some (zeroFlowErrorMessage "demo")
    ∧ (repositorySynth [] [demoProjectNoFlows]
        [("domains/reference/demo/README.md", "# demo\n")]).1 = [] := by
  have t := zero_flow_project_fails_at_validation [] demoProjectNoFlows
    [("domains/reference/demo/README.md", "# demo\n")] rfl
  exact ⟨t.1, t.2.1⟩

/-! ## Claim C6 — trigger path scoping -/

/-- C6 (counterexample): a project constructed with a custom `outdir` keeps name
`demo` and domain `reference`, but its push path filters follow the output
directory, not the name, so the claimed set (containing `domains/reference/demo/**`)
is wrong for it. -/
theorem trigger_paths_follow_custom_outdir :
    customOutdirProject.name = "demo"
    ∧ customOutdirProject.domain = "reference"
    ∧ triggerPaths (mkWorkflowContent customOutdirProject) "push"
        = ["domains/reference/custom/**", ".github/workflows/ci-cd--reference--demo.yml"]
    ∧ "domains/reference/demo/**"
        ∉ triggerPaths (mkWorkflowContent customOutdirProject) "push" := by decide

/-- C6 (amended): the push and pull-request path filters are exactly the project's
output directory glob plus the generated workflow file's own path; for a project
whose output directory is the default `domains/<domain>/<name>` both trigger path
filters equal the claimed two-element set. -/
theorem trigger_paths_scoped_to_project (p : MetaflowProjectRec)
    (h : p.outdir = "domains/" ++ p.domain ++ "/" ++ p.name) :
    triggerPaths (mkWorkflowContent p) "push"
        = ["domains/" ++ p.domain ++ "/" ++ p.name ++ "/**",
           ".github/workflows/" ++ workflowFileName p]
    ∧ triggerPaths (mkWorkflowContent p) "pull_request"
        = ["domains/" ++ p.domain ++ "/" ++ p.name ++ "/**",
           ".github/workflows/" ++ workflowFileName p] := by
  constructor
  · have e : triggerPaths (mkWorkflowContent p) "push"
        = [p.outdir ++ "/**", ".github/workflows/" ++ workflowFileName p] := rfl
    rw [e, h]
  · have e : triggerPaths (mkWorkflowContent p) "pull_request"
        = [p.outdir ++ "/**", ".github/workflows/" ++ workflowFileName p] := rfl
    rw [e, h]

/-- C6 witness: the amended theorem at the default-outdir `demo` project, with both
filters equal to the claimed literal set. -/
theorem trigger_paths_scoped_to_project_witness :
    triggerPaths (mkWorkflowContent demoProject) "push"
        = ["domains/reference/demo/**", ".github/workflows/ci-cd--reference--demo.yml"]
    ∧ triggerPaths (mkWorkflowContent demoProject) "pull_request"
        = ["domains/reference/demo/**", ".github/workflows/ci-cd--reference--demo.yml"] := by
  have t := trigger_paths_scoped_to_project demoProject (by decide)
  exact ⟨t.1.trans (by decide), t.2.trans (by decide)⟩

/-! ## Claim C7 — write-once idempotence -/

/-- C7: when the target path of a write-if-absent file already holds a (possibly
user-modified) file, re-running synthesis leaves the file system — and in particular
that file's bytes — unchanged, and a further re-run is idempotent. -/
theorem write_once_preserves_existing_file (fs : FileSystem) (p c c2 : String)
    (h : fsExists fs p = true) :
    writeFileIfNotExists fs p c = fs
    ∧ fsLookup (writeFileIfNotExists fs p c) p = fsLookup fs p
    ∧ writeFileIfNotExists (writeFileIfNotExists fs p c) p c2
        = writeFileIfNotExists fs p c := by
  have h1 : writeFileIfNotExists fs p c = fs := by
    simp [writeFileIfNotExists, h]
  refine ⟨h1, by rw [h1], ?_⟩
  rw [h1]; exact h1.symm ▸ (by simp [writeFileIfNotExists, h])

/-- C7 witness: the theorem at a concrete user-modified starter flow file. -/
theorem write_once_preserves_existing_file_witness :
    writeFileIfNotExists
        [("domains/reference/demo/src/sample_flow.py", "user edits")]
        "domains/reference/demo/src/sample_flow.py" "generated"
      = [("domains/reference/demo/src/sample_flow.py", "user edits")] :=
  (write_once_preserves_existing_file
    [("domains/reference/demo/src/sample_flow.py", "user edits")]
    "domains/reference/demo/src/sample_flow.py" "generated" "regenerated" (by decide)).1

/-! ## Claim C8 — flow filename validation -/

/-- C8 (counterexample): the filename `_flow.py` is accepted by the embedded
validation (the code checks `filename[:-3] = "_flow"`, a valid lowercase
identifier), while the claim's condition — the remainder after stripping the whole
`_flow.py` suffix is a valid lowercase identifier — fails on it (the remainder is
empty). -/
theorem add_flow_accepts_bare_suffix_filename :
    (addFlowState demoProjectNoFlows "_flow.py").2 = none
    ∧ specFlowFilenameOk "_flow.py" = false := by decide

/-- C8 (amended): `add_flow` succeeds exactly when the filename ends with `_flow.py`
and the filename with only its `.py` extension stripped (so still including the
`_flow` part) is a valid lowercase identifier; on a violation the error is raised
before registration so the project (and its flow list) is unchanged, and on success
exactly the new flow is appended. -/
theorem add_flow_validation_rule (p : MetaflowProjectRec) (filename : String) :
    ((addFlowState p filename).2 = none
      ↔ (pyEndsWith filename "_flow.py"
          && pyIsIdentifier (pyDropRight filename 3)
          && pyIsLower (pyDropRight filename 3)) = true)
    ∧ ((addFlowState p filename).2 ≠ none → (addFlowState p filename).1 = p)
    ∧ ((addFlowState p filename).2 = none →
        (addFlowState p filename).1.flows = p.flows ++
          [{ flowPath := p.srcDir ++ "/" ++ filename,
             flowName := getFlowClassNameFromFilepath (p.srcDir ++ "/" ++ filename) }]) := by
  cases hE : pyEndsWith filename "_flow.py" <;>
    cases hI : pyIsIdentifier (pyDropRight filename 3) <;>
      cases hL : pyIsLower (pyDropRight filename 3) <;>
        simp [addFlowState, assertFlowFilenameIsValid, hE, hI, hL]

/-- C8 witness: the amended theorem at the invalid filename `Flow_flow.py` — the
call raises and the project is left unchanged. -/
theorem add_flow_validation_rule_witness :
    (addFlowState demoProjectNoFlows "Flow_flow.py").1 = demoProjectNoFlows :=
  (add_flow_validation_rule demoProjectNoFlows "Flow_flow.py").2.1 (by decide)

/-! ## Claim C9 — determinism of the pipeline generator -/

/-- C9 (counterexample): two projects with the same domain, name and registered flow
filenames (in the same order) but different output directories yield different
pipeline documents, so the document is not a function of (domain, name, flow list)
alone. -/
theorem workflow_differs_for_custom_outdir :
    demoProject.domain = customOutdirProject.domain
    ∧ demoProject.name = customOutdirProject.name
    ∧ demoProject.flows.map flowFileName = customOutdirProject.flows.map flowFileName
    ∧ mkWorkflowContent demoProject ≠ mkWorkflowContent customOutdirProject := by
  refine ⟨by decide, by decide, by decide, ?_⟩
  have hp : triggerPaths (mkWorkflowContent demoProject) "push"
      ≠ triggerPaths (mkWorkflowContent customOutdirProject) "push" := by decide
  exact fun h => hp (congrArg (fun d => triggerPaths d "push") h)

/-- C9 (amended): the pipeline-document generator is deterministic in all of its
inputs: two projects agreeing on domain, name, output directory and the registered
flow list (in order) produce identical documents.  The output directory is an
additional input beyond the claim's list; it defaults to the name but can be
overridden. -/
theorem workflow_generation_deterministic (p q : MetaflowProjectRec)
    (hd : p.domain = q.domain) (hn : p.name = q.name) (ho : p.outdir = q.outdir)
    (hf : p.flows = q.flows) :
    mkWorkflowContent p = mkWorkflowContent q := by
  simp only [mkWorkflowContent, workflowFileName, hd, hn, ho, hf]

/-- C9 witness: the amended theorem at two (identical) runs on the `demo` project. -/
theorem workflow_generation_deterministic_witness :
    mkWorkflowContent demoProject = mkWorkflowContent demoProject :=
  workflow_generation_deterministic demoProject demoProject rfl rfl rfl rfl

/-! ## Claim C10 — project-name validation on a normalized copy -/

/-- C10: project-name validation lowercases and strips a local copy of the input and
checks the pattern on it, then discards the normalized copy: any input whose
lowercased, stripped form matches `^[a-z][a-z-]*[a-z]$` passes validation, and a
project constructed with it (and a valid domain) stores the original input verbatim
as its name. -/
theorem project_name_checked_on_normalized_copy (name domain : String)
    (hname : projectNameMatches (pyStrip (pyLower name)) = true)
    (hdom : domainIsValid domain = true) :
    assertProjectNameIsValid name = Except.ok ()
    ∧ ∃ p, metaflowProjectInit name domain none none = Except.ok p
        ∧ p.name = name := by
  have h1 : assertProjectNameIsValid name = Except.ok () := by
    simp [assertProjectNameIsValid, hname]
  refine ⟨h1, ?_⟩
  refine ⟨{ name := name, domain := domain,
            outdir := "domains/" ++ domain ++ "/" ++ name,
            importModuleName := replaceDashWithUnderscore name,
            srcDir := "domains/" ++ domain ++ "/" ++ name ++ "/src",
            packageDir := "domains/" ++ domain ++ "/" ++ name ++ "/src/" ++
              replaceDashWithUnderscore name,
            flows := [] }, ?_, rfl⟩
  simp [metaflowProjectInit, h1, assertDomainIsValid, hdom]

/-- C10 witness: the theorem at the mixed-case name `My-Project`, which is accepted
and stored un-normalized. -/
theorem project_name_checked_on_normalized_copy_witness :
    assertProjectNameIsValid "My-Project" = Except.ok ()
    ∧ ∃ p, metaflowProjectInit "My-Project" "reference" none none = Except.ok p
        ∧ p.name = "My-Project" :=
  project_name_checked_on_normalized_copy "My-Project" "reference" (by decide) (by decide)

/-! ## Sanity examples for the string fragment -/

example : pyLower "My-Project" = "my-project" := by decide
example : pyStrip "  ab\n" = "ab" := by decide
example : pyTitle "dAILY" = "Daily" := by decide
example : pyTitle "a1b" = "A1B" := by decide
example : splitOnChar '_' "a__b" = ["a", "", "b"] := by decide
example : pathStem "path/to/some_backtest_flow.py" = "some_backtest_flow" := by decide
example : pathStem "archive.tar.gz" = "archive.tar" := by decide
example : pathStem ".py" = ".py" := by decide
example : pyIsLower "_flow" = true := by decide
example : pyIsIdentifier "" = false := by decide
example : pySortedSetUnion ["requests"] [] = ["requests"] := by decide
example : getFlowClassNameFromFilepath "path/to/some_backtest_flow.py" = "SomeBacktestFlow" := by decide
example : (assertFlowFilenameIsValid "daily_forecast_flow.py").isOk = true := by decide
example : (assertFlowFilenameIsValid "Flow_flow.py").isOk = false := by decide
example : demoProjectNoFlows.outdir = "domains/reference/demo" := by decide
example : demoProjectNoFlows.srcDir = "domains/reference/demo/src" := by decide
example : demoProject.flows.map MetaflowFlowRec.flowName = ["SampleFlow"] := by decide
example : customOutdirProject.outdir = "domains/reference/custom" := by decide
example : projectNameMatches "my-project" = true := by decide
example : projectNameMatches "a" = false := by decide
